import Mathlib

/-!
Shallow embedding of the `json_parser` Rust crate (src/span.rs, src/tokenizer.rs,
src/parser.rs, src/visit.rs, src/lib.rs) and proofs about the claims of its
specification.

Modelling conventions:
* Rust methods that mutate `self` become Lean functions threading the state
  explicitly.  A scanner that can fail after mutating the cursor returns a pair
  `(Option Token, Tokenizer)`: the Rust code keeps the mutations even on the
  `None` path, and `tokenize` observes them, so the failure state must be kept.
* Rust `usize` values stay `Nat` (none of the arithmetic here can underflow on
  reachable inputs; `Nat` truncated subtraction coincides with the reachable
  Rust behaviour, noted at each use).
* `f64` number decoding (`lexeme.parse::<f64>().unwrap()`) is abstracted by
  keeping the numeric lexeme itself in the token/AST: no claim depends on
  float arithmetic, only on which lexeme was accepted.
* A Rust panic (`Option::unwrap` on `None`, slice-index out of bounds,
  `char::from_u32(..).unwrap()` on a surrogate) is modelled as a distinguished
  error constructor `panicked`: the Rust call aborts instead of returning.
* The `while` loops recurse on an explicit fuel argument.  `outOfFuel` is an
  embedding artifact only: every loop advances its cursor on every iteration,
  and the fuel supplied by the entry points exceeds the iteration count.
-/

namespace JsonParser

/-- Source location, mirroring `span.rs::Loc`: 1-based line/column, 0-based
offset in characters. -/
structure Loc where
  line : Nat
  column : Nat
  offset : Nat

/-- Half-open source range, mirroring `span.rs::Span`.  The Rust field `end` is
a Lean keyword, so it is called `endLoc` here. -/
structure Span where
  start : Loc
  endLoc : Loc

/-- Tokens, mirroring `tokenizer.rs::Token`.  The Rust per-variant structs
(`LeftBraceToken` etc.) are flattened into constructor arguments.  The
`number` variant keeps the accepted lexeme instead of the decoded `f64`. -/
inductive Token where
  | leftBrace (span : Span)
  | rightBrace (span : Span)
  | leftBracket (span : Span)
  | rightBracket (span : Span)
  | colon (span : Span)
  | comma (span : Span)
  | string (value : String) (span : Span)
  | number (value : String) (span : Span)
  | boolean (value : Bool) (span : Span)
  | null (span : Span)

/-- Mirrors `Token::get_span`. -/
def Token.get_span : Token → Span
  | .leftBrace span => span
  | .rightBrace span => span
  | .leftBracket span => span
  | .rightBracket span => span
  | .colon span => span
  | .comma span => span
  | .string _ span => span
  | .number _ span => span
  | .boolean _ span => span
  | .null span => span

/-- Mirrors `tokenizer.rs::StringState`. -/
inductive StringState where
  | start
  | quoteOrChar
  | escape

/-- Mirrors `tokenizer.rs::NumberState`. -/
inductive NumberState where
  | start
  | minus
  | zero
  | digit
  | fraction
  | point
  | exp
  | expSignOrDigit

/-- Mirrors `tokenizer.rs::Tokenizer`.  The Rust `len` field always equals
`chars.len()`, so it is not stored. -/
structure Tokenizer where
  chars : List Char
  index : Nat
  line : Nat
  column : Nat

/-- `Tokenizer::new`. -/
def Tokenizer.new (input : String) : Tokenizer :=
  { chars := input.toList, index := 0, line := 1, column := 1 }

/-- The ubiquitous `self.index += 1; self.column += 1;` pair. -/
def Tokenizer.adv (t : Tokenizer) : Tokenizer :=
  { t with index := t.index + 1, column := t.column + 1 }

/-- Mirrors `Tokenizer::line_span`.  `end_index - start_loc.offset` never
underflows at any call site (`end_index` is at or past the recorded start). -/
def Tokenizer.line_span (t : Tokenizer) (startLoc? : Option Loc) (endIndex : Nat) : Span :=
  let s := startLoc?.getD { line := t.line, column := t.column, offset := t.index }
  let spanLen := endIndex - s.offset
  { start := s
    endLoc := { line := s.line, column := s.column + spanLen, offset := s.offset + spanLen } }

/-- Mirrors `Tokenizer::substring`: `chars.iter().skip(start).take(end - start)`. -/
def Tokenizer.substring (t : Tokenizer) (s e : Nat) : String :=
  String.mk ((t.chars.drop s).take (e - s))

/-- Mirrors `tokenizer.rs::is_hex`. -/
def is_hex (c : Char) : Bool :=
  if ('0' ≤ c ∧ c ≤ '9') ∨ ('a' ≤ c ∧ c ≤ 'f') ∨ ('A' ≤ c ∧ c ≤ 'F') then true else false

/-- Mirrors `Tokenizer::whitespace`.  Returns `true` iff a character was
consumed (Rust `Some(())`).  Note the Rust CR arm re-tests the character `c`
it already matched as CR (`if *c == '\n'`), so the intended CRLF branch is
dead code and the LF after a CR is not consumed here. -/
def Tokenizer.whitespace (t : Tokenizer) : Bool × Tokenizer :=
  match t.chars[t.index]? with
  | some ' ' | some '\t' => (true, t.adv)
  | some '\r' =>
    (true, { t with index := t.index + 1, line := t.line + 1, column := 1 })
  | some '\n' =>
    (true, { t with index := t.index + 1, line := t.line + 1, column := 1 })
  | _ => (false, t)

/-- Mirrors `Tokenizer::punctuation`. -/
def Tokenizer.punctuation (t : Tokenizer) : Option Token × Tokenizer :=
  match t.chars[t.index]? with
  | some '{' => (some (Token.leftBrace (t.line_span none (t.index + 1))), t.adv)
  | some '}' => (some (Token.rightBrace (t.line_span none (t.index + 1))), t.adv)
  | some '[' => (some (Token.leftBracket (t.line_span none (t.index + 1))), t.adv)
  | some ']' => (some (Token.rightBracket (t.line_span none (t.index + 1))), t.adv)
  | some ':' => (some (Token.colon (t.line_span none (t.index + 1))), t.adv)
  | some ',' => (some (Token.comma (t.line_span none (t.index + 1))), t.adv)
  | _ => (none, t)

/-- Mirrors the `for i in 0..4` hex-digit check inside `Tokenizer::string`'s
escape arm.  The Rust loop advances `self.index` on each success while also
incrementing `i`, and tests `chars[self.index + i + 1]`, so the four probed
positions are `p+1`, `p+3`, `p+5`, `p+7` where `p` is the position of the
`u`.  On failure the advances made so far are kept (Rust returns `None` from
`string` with the mutated cursor). -/
def Tokenizer.hexCheckLoop : Nat → Nat → Tokenizer → Bool × Tokenizer
  | 0, _, t => (true, t)
  | k + 1, i, t =>
    match t.chars[t.index + i + 1]? with
    | some c => if is_hex c then Tokenizer.hexCheckLoop k (i + 1) t.adv else (false, t)
    | none => (false, t)

/-- The four iterations of the Rust `for i in 0..4` loop. -/
def Tokenizer.hex_check (t : Tokenizer) (i : Nat) : Bool × Tokenizer :=
  Tokenizer.hexCheckLoop (4 - i) i t

/-- Loop body of `Tokenizer::string` (the 3-state scanner).  The token value
is the raw lexeme, quotes included; escapes are not decoded here. -/
def Tokenizer.stringLoop (startLoc : Loc) : Nat → StringState → Tokenizer → Option Token × Tokenizer
  | 0, _, t => (none, t)
  | fuel + 1, state, t =>
    match t.chars[t.index]? with
    | none => (none, t)
    | some c =>
      match state with
      | .start =>
        if c = '"' then Tokenizer.stringLoop startLoc fuel .quoteOrChar t.adv
        else (none, t)
      | .quoteOrChar =>
        if c = '"' then
          (some (Token.string (t.substring startLoc.offset (t.index + 1))
            (t.line_span (some startLoc) (t.index + 1))), t.adv)
        else if c = '\\' then Tokenizer.stringLoop startLoc fuel .escape t.adv
        else Tokenizer.stringLoop startLoc fuel .quoteOrChar t.adv
      | .escape =>
        if c = 'u' then
          match t.hex_check 0 with
          | (true, t') => Tokenizer.stringLoop startLoc fuel .quoteOrChar t'
          | (false, t') => (none, t')
        else if c = '"' ∨ c = '\\' ∨ c = '/' ∨ c = 'b' ∨ c = 'f' ∨ c = 'n' ∨ c = 'r' ∨ c = 't' then
          Tokenizer.stringLoop startLoc fuel .quoteOrChar t.adv
        else (none, t)

/-- Mirrors `Tokenizer::string`.  Every loop iteration advances `index`, so
`chars.length + 2` fuel always outlasts the Rust `while`. -/
def Tokenizer.string (t : Tokenizer) : Option Token × Tokenizer :=
  Tokenizer.stringLoop { line := t.line, column := t.column, offset := t.index }
    (t.chars.length + 2) .start t

/-- One transition of the `Tokenizer::number` state machine: `none` models the
Rust `break`, `some` carries the next state and `parsed_index`. -/
def numberStep (state : NumberState) (c : Char) (index parsedIndex : Nat) :
    Option (NumberState × Nat) :=
  match state with
  | .start =>
    if c = '-' then some (.minus, parsedIndex)
    else if c = '0' then some (.zero, index + 1)
    else if '1' ≤ c ∧ c ≤ '9' then some (.digit, index + 1)
    else none
  | .minus =>
    if c = '0' then some (.zero, index + 1)
    else if '1' ≤ c ∧ c ≤ '9' then some (.digit, index + 1)
    else none
  | .zero =>
    if c = '.' then some (.point, parsedIndex)
    else if c = 'e' ∨ c = 'E' then some (.exp, parsedIndex)
    else none
  | .digit =>
    if '0' ≤ c ∧ c ≤ '9' then some (.digit, index + 1)
    else if c = '.' then some (.point, parsedIndex)
    else if c = 'e' ∨ c = 'E' then some (.exp, parsedIndex)
    else none
  | .point =>
    if '0' ≤ c ∧ c ≤ '9' then some (.fraction, index + 1)
    else none
  | .fraction =>
    if '0' ≤ c ∧ c ≤ '9' then some (.fraction, index + 1)
    else if c = 'e' ∨ c = 'E' then some (.exp, parsedIndex)
    else none
  | .exp =>
    if c = '-' then some (.expSignOrDigit, parsedIndex)
    else if '0' ≤ c ∧ c ≤ '9' then some (.expSignOrDigit, index + 1)
    else none
  | .expSignOrDigit =>
    if '0' ≤ c ∧ c ≤ '9' then some (.fraction, index + 1)
    else none

/-- The `while` loop of `Tokenizer::number`: on `break` or end of input it
returns the final `parsed_index` together with the mutated cursor. -/
def Tokenizer.numberLoop : Nat → NumberState → Nat → Tokenizer → Nat × Tokenizer
  | 0, _, parsedIndex, t => (parsedIndex, t)
  | fuel + 1, state, parsedIndex, t =>
    match t.chars[t.index]? with
    | none => (parsedIndex, t)
    | some c =>
      match numberStep state c t.index parsedIndex with
      | none => (parsedIndex, t)
      | some (state', parsed') => Tokenizer.numberLoop fuel state' parsed' t.adv

/-- Mirrors `Tokenizer::number`.  The accepted lexeme replaces the Rust
`parse::<f64>().unwrap()` result (it is always a valid `f64` lexeme since
`parsed_index` only advances past digits).  Note: the cursor is left where
the loop stopped, which can be past `parsed_index` (e.g. after `"1."` the
dot has been consumed although it is not part of the token). -/
def Tokenizer.number (t : Tokenizer) : Option Token × Tokenizer :=
  let startLoc : Loc := { line := t.line, column := t.column, offset := t.index }
  match Tokenizer.numberLoop (t.chars.length + 1) .start 0 t with
  | (parsedIndex, t') =>
    if parsedIndex > 0 then
      (some (Token.number (t'.substring startLoc.offset parsedIndex)
        (t'.line_span (some startLoc) parsedIndex)), t')
    else (none, t')

/-- Mirrors `Tokenizer::boolean` (fixed-length compare against `true`/`false`). -/
def Tokenizer.boolean (t : Tokenizer) : Option Token × Tokenizer :=
  if t.substring t.index (t.index + 4) = "true" then
    (some (Token.boolean true (t.line_span none (t.index + 4))),
      { t with index := t.index + 4, column := t.column + 4 })
  else if t.substring t.index (t.index + 5) = "false" then
    (some (Token.boolean false (t.line_span none (t.index + 5))),
      { t with index := t.index + 5, column := t.column + 5 })
  else (none, t)

/-- Mirrors `Tokenizer::null`. -/
def Tokenizer.null (t : Tokenizer) : Option Token × Tokenizer :=
  if t.substring t.index (t.index + 4) = "null" then
    (some (Token.null (t.line_span none (t.index + 4))),
      { t with index := t.index + 4, column := t.column + 4 })
  else (none, t)

/-- Lexer outcome.  Rust returns `Err(String)`; the structured payload of the
formatted message is kept instead.  `panicked` models the Rust panic when the
error formatting unwraps `chars.get(index)` at or past the end of input. -/
inductive LexError where
  | unexpectedChar (c : Char) (line column : Nat)
  | panicked
  | outOfFuel

/-- The `punctuation().or_else(string).or_else(number).or_else(boolean)
.or_else(null)` chain of `Tokenizer::tokenize`: each scanner runs on the
state left behind by the previous (failed) one. -/
def Tokenizer.scanToken (t : Tokenizer) : Option Token × Tokenizer :=
  match t.punctuation with
  | (some tok, t1) => (some tok, t1)
  | (none, t1) =>
    match t1.string with
    | (some tok, t2) => (some tok, t2)
    | (none, t2) =>
      match t2.number with
      | (some tok, t3) => (some tok, t3)
      | (none, t3) =>
        match t3.boolean with
        | (some tok, t4) => (some tok, t4)
        | (none, t4) => t4.null

/-- The `while self.index < self.len` loop of `Tokenizer::tokenize`. -/
def Tokenizer.tokenizeLoop : Nat → Tokenizer → List Token → Except LexError (List Token)
  | 0, _, _ => Except.error LexError.outOfFuel
  | fuel + 1, t, acc =>
    if t.index < t.chars.length then
      match t.whitespace with
      | (true, t') => Tokenizer.tokenizeLoop fuel t' acc
      | (false, _) =>
        match t.scanToken with
        | (some tok, t') => Tokenizer.tokenizeLoop fuel t' (acc ++ [tok])
        | (none, t') =>
          match t'.chars[t'.index]? with
          | some c => Except.error (LexError.unexpectedChar c t'.line t'.column)
          | none => Except.error LexError.panicked
    else Except.ok acc

/-- Mirrors `Tokenizer::tokenize` on a fresh tokenizer.  Every iteration that
continues the loop advances `index` by at least one, so `length + 1` fuel
outlasts the Rust `while`. -/
def tokenize (input : String) : Except LexError (List Token) :=
  Tokenizer.tokenizeLoop (input.length + 1) (Tokenizer.new input) []

mutual
/-- AST nodes, mirroring `parser.rs::Ast` and its payload structs.  The Rust
`StringAst`/`NumberAst`/`BoolAst`/`NullAst` structs are flattened into the
constructor arguments; `PropertyAst` and `IdentifierAst` stay separate types
because `ObjectAst.value` is a `Vec<PropertyAst>` and `PropertyAst.key` an
`IdentifierAst`.  As in the tokens, a number keeps its lexeme rather than the
decoded `f64`. -/
inductive Ast where
  | string (value : String) (span : Span)
  | number (value : String) (span : Span)
  | boolean (value : Bool) (span : Span)
  | null (span : Span)
  | object (value : List Property) (span : Span)
  | property (p : Property)
  | identifier (i : Identifier)
  | array (value : List Ast) (span : Span)

inductive Property where
  | mk (key : Identifier) (value : Ast) (span : Span)

inductive Identifier where
  | mk (value : String) (valueSpan : Span) (span : Span)
end

/-- Span of a `PropertyAst`. -/
def Property.span : Property → Span
  | .mk _ _ s => s

/-- Span of an `IdentifierAst`. -/
def Identifier.span : Identifier → Span
  | .mk _ _ s => s

/-- Mirrors `Ast::get_span`. -/
def Ast.get_span : Ast → Span
  | .string _ span => span
  | .number _ span => span
  | .boolean _ span => span
  | .null span => span
  | .object _ span => span
  | .property p => p.span
  | .identifier i => i.span
  | .array _ span => span

/-- Mirrors the `lazy_static` `ESCAPES` map of `parser.rs`.  Its values are
RAW Rust string literals: `r"\n"` is the two characters backslash-`n`, not a
line feed, and likewise for the other four entries. -/
def ESCAPES (c : Char) : Option String :=
  if c = 'b' then some ("\\b")
  else if c = 'f' then some ("\\f")
  else if c = 'n' then some ("\\n")
  else if c = 'r' then some ("\\r")
  else if c = 't' then some ("\\t")
  else none

/-- Value of one hex digit, as accepted by `u16::from_str_radix(_, 16)`. -/
def hexVal (c : Char) : Option Nat :=
  if '0' ≤ c ∧ c ≤ '9' then some (c.toNat - '0'.toNat)
  else if 'a' ≤ c ∧ c ≤ 'f' then some (c.toNat - 'a'.toNat + 10)
  else if 'A' ≤ c ∧ c ≤ 'F' then some (c.toNat - 'A'.toNat + 10)
  else none

/-- `u16::from_str_radix(s, 16)` on a 4-character slice (the only use in
`parse_string`).  The slice's first character is always a hex digit there, so
the Rust tolerance for a leading `+` cannot fire and is not modelled. -/
def from_str_radix16 (cs : List Char) : Option Nat :=
  match cs with
  | [] => none
  | _ =>
    cs.foldl
      (fun acc? c =>
        match acc?, hexVal c with
        | some acc, some v => some (16 * acc + v)
        | _, _ => none)
      (some 0)

/-- Parse/AST-construction errors.  Rust returns `Err(String)`; the structured
payloads of the formatted messages are kept.  `panicked` models the Rust
panics in `parse_string` (`unwrap` on a missing character after a backslash,
out-of-bounds slice or non-hex digits under `\u`, surrogate passed to
`char::from_u32`) and in `parse_literal` (`tokens.get(index).unwrap()`). -/
inductive ParseError where
  | unexpectedEof
  | unexpectedToken (t : Token)
  | invalidEscape (c : Char)
  | panicked
  | outOfFuel

/-- The `while index < chars.len()` loop of `parser.rs::parse_string`, over
the interior characters (quotes already stripped).  Each iteration consumes
at least one character, so `length + 1` fuel outlasts the Rust loop. -/
def parseStringLoop : Nat → List Char → Nat → List Char → Except ParseError (List Char)
  | 0, _, _, _ => Except.error ParseError.outOfFuel
  | fuel + 1, chars, index, acc =>
    match chars[index]? with
    | none => Except.ok acc
    | some c =>
      if c = '\\' then
        match chars[index + 1]? with
        | none => Except.error ParseError.panicked
        | some nextC =>
          if nextC = 'u' then
            match (chars.drop (index + 2)).take 4 with
            | slice =>
              if slice.length < 4 then Except.error ParseError.panicked
              else
                match from_str_radix16 slice with
                | none => Except.error ParseError.panicked
                | some u =>
                  if 0xD800 ≤ u ∧ u ≤ 0xDFFF then Except.error ParseError.panicked
                  else parseStringLoop fuel chars (index + 6) (acc ++ [Char.ofNat u])
          else if nextC = '"' ∨ nextC = '\\' ∨ nextC = '/' then
            parseStringLoop fuel chars (index + 2) (acc ++ [nextC])
          else
            match ESCAPES nextC with
            | some s => parseStringLoop fuel chars (index + 2) (acc ++ s.toList)
            | none => Except.error (ParseError.invalidEscape nextC)
      else parseStringLoop fuel chars (index + 1) (acc ++ [c])

/-- Mirrors `parser.rs::parse_string`.  The Rust byte slice
`quoted_input[1..len-1]` strips the surrounding quotes; every lexeme handed
over by the tokenizer starts and ends with the one-byte `"`, so dropping the
first and last character is the same operation. -/
def parse_string (quotedInput : String) : Except ParseError String :=
  let chars := (quotedInput.toList.drop 1).dropLast
  (parseStringLoop (chars.length + 1) chars 0 []).map String.mk

/-- Mirrors `parser.rs::ObjectState`. -/
inductive ObjectState where
  | start
  | leftBrace
  | property
  | comma

/-- Mirrors `parser.rs::PropertyState`. -/
inductive PropertyState where
  | start
  | key
  | colon

/-- Mirrors `parser.rs::ArrayState`. -/
inductive ArrayState where
  | start
  | leftBracket
  | value
  | comma

/-- Mirrors `parser.rs::Parser`.  As with the tokenizer, the stored `len`
always equals `tokens.len()` and is not kept. -/
structure Parser where
  tokens : List Token
  index : Nat

/-- `self.index += 1`. -/
def Parser.adv (p : Parser) : Parser :=
  { p with index := p.index + 1 }

/-- Mirrors `Parser::create_span`. -/
def create_span (startSpan? : Option Span) (endSpan : Span) : Span :=
  match startSpan? with
  | some s => { start := s.start, endLoc := endSpan.endLoc }
  | none => endSpan

/-- Mirrors `Parser::parse_literal`.  Errors leave the cursor untouched; the
initial `tokens.get(self.index).unwrap()` panics when the cursor is at the
end (unreachable from `Parser::parse`, which guards the empty sequence, and
from the loops, which only call it under their `while let` guard). -/
def parseLiteral (p : Parser) : Except ParseError Ast × Parser :=
  match p.tokens[p.index]? with
  | none => (Except.error ParseError.panicked, p)
  | some tok =>
    match tok with
    | .string value span =>
      match parse_string value with
      | .error e => (Except.error e, p)
      | .ok ret => (Except.ok (Ast.string ret (create_span none span)), p.adv)
    | .number value span => (Except.ok (Ast.number value (create_span none span)), p.adv)
    | .boolean b span => (Except.ok (Ast.boolean b (create_span none span)), p.adv)
    | .null span => (Except.ok (Ast.null (create_span none span)), p.adv)
    | _ => (Except.error (ParseError.unexpectedToken tok), p)

mutual
/-- Mirrors `Parser::parse_value`: `parse_literal().or_else(parse_object())
.or_else(parse_array())`.  Each alternative runs on the state the previous
failed one left behind (a failed alternative may have consumed tokens). -/
def parseValue : Nat → Parser → Except ParseError Ast × Parser
  | 0, p => (Except.error ParseError.outOfFuel, p)
  | fuel + 1, p =>
    match parseLiteral p with
    | (.ok a, p1) => (Except.ok a, p1)
    | (.error _, p1) =>
      match parseObjectLoop fuel .start none [] p1 with
      | (.ok a, p2) => (Except.ok a, p2)
      | (.error _, p2) => parseArrayLoop fuel .start none [] p2

/-- The `while let` state machine of `Parser::parse_object`.  `startSpan?`
and `props` are the local `start_span` and `object_ast.value` of the Rust
method; falling off the end of the tokens is `error_eof`. -/
def parseObjectLoop : Nat → ObjectState → Option Span → List Property → Parser →
    Except ParseError Ast × Parser
  | 0, _, _, _, p => (Except.error ParseError.outOfFuel, p)
  | fuel + 1, state, startSpan?, props, p =>
    match p.tokens[p.index]? with
    | none => (Except.error ParseError.unexpectedEof, p)
    | some tok =>
      match state with
      | .start =>
        match tok with
        | .leftBrace span => parseObjectLoop fuel .leftBrace (some span) props p.adv
        | _ => (Except.error (ParseError.unexpectedToken tok), p)
      | .leftBrace =>
        match tok with
        | .rightBrace span =>
          (Except.ok (Ast.object props (create_span startSpan? span)), p.adv)
        | _ =>
          match parsePropertyLoop fuel .start none none p with
          | (.ok (Ast.property prop), p1) =>
            parseObjectLoop fuel .property startSpan? (props ++ [prop]) p1
          | (.ok _, p1) => (Except.error (ParseError.unexpectedToken tok), p1)
          | (.error e, p1) => (Except.error e, p1)
      | .property =>
        match tok with
        | .comma _ => parseObjectLoop fuel .comma startSpan? props p.adv
        | .rightBrace span =>
          (Except.ok (Ast.object props (create_span startSpan? span)), p.adv)
        | _ => (Except.error (ParseError.unexpectedToken tok), p)
      | .comma =>
        match parsePropertyLoop fuel .start none none p with
        | (.ok (Ast.property prop), p1) =>
          parseObjectLoop fuel .property startSpan? (props ++ [prop]) p1
        | (.ok _, p1) => (Except.error (ParseError.unexpectedToken tok), p1)
        | (.error e, p1) => (Except.error e, p1)

/-- The `while let` state machine of `Parser::parse_property`.  `identifier?`
is the local `identifier` option; the `identifier.unwrap()` in the `Colon`
arm cannot fail because the machine only reaches `Colon` after `Key`. -/
def parsePropertyLoop : Nat → PropertyState → Option Span → Option Identifier → Parser →
    Except ParseError Ast × Parser
  | 0, _, _, _, p => (Except.error ParseError.outOfFuel, p)
  | fuel + 1, state, startSpan?, identifier?, p =>
    match p.tokens[p.index]? with
    | none => (Except.error ParseError.unexpectedEof, p)
    | some tok =>
      match state with
      | .start =>
        match tok with
        | .string value span =>
          match parse_string value with
          | .error e => (Except.error e, p)
          | .ok ret =>
            parsePropertyLoop fuel .key (some span)
              (some (Identifier.mk ret span span)) p.adv
        | _ => (Except.error (ParseError.unexpectedToken tok), p)
      | .key =>
        match tok with
        | .colon _ => parsePropertyLoop fuel .colon startSpan? identifier? p.adv
        | _ => (Except.error (ParseError.unexpectedToken tok), p)
      | .colon =>
        match parseValue fuel p with
        | (.ok v, p1) =>
          match identifier? with
          | some ident =>
            (Except.ok (Ast.property (Property.mk ident v
              (create_span startSpan? v.get_span))), p1)
          | none => (Except.error ParseError.panicked, p1)
        | (.error e, p1) => (Except.error e, p1)

/-- The `while let` state machine of `Parser::parse_array`. -/
def parseArrayLoop : Nat → ArrayState → Option Span → List Ast → Parser →
    Except ParseError Ast × Parser
  | 0, _, _, _, p => (Except.error ParseError.outOfFuel, p)
  | fuel + 1, state, startSpan?, items, p =>
    match p.tokens[p.index]? with
    | none => (Except.error ParseError.unexpectedEof, p)
    | some tok =>
      match state with
      | .start =>
        match tok with
        | .leftBracket span => parseArrayLoop fuel .leftBracket (some span) items p.adv
        | _ => (Except.error (ParseError.unexpectedToken tok), p)
      | .leftBracket =>
        match tok with
        | .rightBracket span =>
          (Except.ok (Ast.array items (create_span startSpan? span)), p.adv)
        | _ =>
          match parseValue fuel p with
          | (.ok v, p1) => parseArrayLoop fuel .value startSpan? (items ++ [v]) p1
          | (.error e, p1) => (Except.error e, p1)
      | .value =>
        match tok with
        | .rightBracket span =>
          (Except.ok (Ast.array items (create_span startSpan? span)), p.adv)
        | .comma _ => parseArrayLoop fuel .comma startSpan? items p.adv
        | _ => (Except.error (ParseError.unexpectedToken tok), p)
      | .comma =>
        match parseValue fuel p with
        | (.ok v, p1) => parseArrayLoop fuel .value startSpan? (items ++ [v]) p1
        | (.error e, p1) => (Except.error e, p1)

end

/-- Fuel bound for a parse of `n` tokens: every unit of recursion depth is
paid for by at most a handful of cursor steps, so `8 n + 8` outlasts any run
of the Rust recursion. -/
def parseFuel (n : Nat) : Nat := 8 * n + 8

/-- Mirrors `Parser::parse` on a fresh parser over `tokens`, returning just
the `Result` (the Rust caller drops the parser state). -/
def parseTokens (tokens : List Token) : Except ParseError Ast :=
  if tokens.length = 0 then Except.error ParseError.unexpectedEof
  else (parseValue (parseFuel tokens.length) { tokens := tokens, index := 0 }).1

/-- Combined error type of `Json::parse` (Rust uses `String` for both). -/
inductive JsonError where
  | lex (e : LexError)
  | parse (e : ParseError)

/-- The `Ast` alias `lib.rs` exposes as `Json`. -/
abbrev Json := Ast

/-- Mirrors `lib.rs::Json::parse`: tokenize, then parse the token sequence. -/
def Json.parse (input : String) : Except JsonError Ast :=
  match tokenize input with
  | .error e => Except.error (JsonError.lex e)
  | .ok tokens => (parseTokens tokens).mapError JsonError.parse

/-- The string hook of the spec's visitor example: it appends each visited
string's value to the visitor state.  This is the one method the caller
overrides (`visit.rs`'s default `visit_string` is a no-op); all the other
methods below are the trait defaults of `visit.rs`. -/
def visitString (value : String) (acc : List String) : List String :=
  acc ++ [value]

mutual
/-- Mirrors the `Visit::visit_json` dispatcher, specialised to the visitor
whose state is the list of string values seen so far. -/
def visitJson : Ast → List String → List String
  | .string value _, acc => visitString value acc
  | .number _ _, acc => acc
  | .boolean _ _, acc => acc
  | .null _, acc => acc
  | .object props _, acc => visitObject props acc
  | .property p, acc => visitProperty p acc
  | .identifier i, acc => visitIdentifier i acc
  | .array items _, acc => visitArray items acc

/-- Default `visit_object`: visit the properties in source order. -/
def visitObject : List Property → List String → List String
  | [], acc => acc
  | prop :: rest, acc => visitObject rest (visitProperty prop acc)

/-- Default `visit_property`: the key (identifier) first, then the value. -/
def visitProperty : Property → List String → List String
  | .mk key value _, acc => visitPropertyValue value (visitIdentifier key acc)

/-- Default `visit_identifier`: visit the wrapped string. -/
def visitIdentifier : Identifier → List String → List String
  | .mk value _ _, acc => visitString value acc

/-- Default `visit_property_value`: dispatch on the value node. -/
def visitPropertyValue : Ast → List String → List String
  | ast, acc => visitJson ast acc

/-- Default `visit_array`: visit the items in source order. -/
def visitArray : List Ast → List String → List String
  | [], acc => acc
  | item :: rest, acc => visitArray rest (visitArrayItem item acc)

/-- Default `visit_array_item`: dispatch on the item node. -/
def visitArrayItem : Ast → List String → List String
  | ast, acc => visitJson ast acc
end

/-- Spans of an object node's properties (empty list for other variants). -/
def propertySpans : Ast → List Span
  | .object props _ => props.map Property.span
  | _ => []

/-- The AST that `Json::parse` produces for the one-property object over
`hello`/`world` (validated by the first conjunct of the theorem using it). -/
def helloWorldAst : Ast :=
  Ast.object
    [Property.mk (Identifier.mk ("hello") ⟨⟨1,2,1⟩,⟨1,9,8⟩⟩ ⟨⟨1,2,1⟩,⟨1,9,8⟩⟩)
      (Ast.string ("world") ⟨⟨1,10,9⟩,⟨1,17,16⟩⟩)
      ⟨⟨1,2,1⟩,⟨1,17,16⟩⟩]
    ⟨⟨1,1,0⟩,⟨1,18,17⟩⟩

/-- C1: the claim says the raw 6-character token `"a\nb"` resolves to the
3-character string `a`, line feed, `b`.  In the code the `ESCAPES` table maps
`n` to the RAW string `r"\n"` (backslash and `n`), so `Json::parse` produces
the 4-character string `a`, backslash, `n`, `b` instead; the third conjunct
records that this value is not the claimed one. -/
theorem escaped_n_kept_as_two_characters :
    Json.parse ("\"a\\nb\"") = Except.ok (Ast.string ("a\\nb") ⟨⟨1,1,0⟩,⟨1,7,6⟩⟩)
    ∧ ("a\\nb" : String).length = 4
    ∧ ("a\\nb" : String) ≠ "a\nb" :=
  ⟨rfl, rfl, by decide⟩

/-- C2: the claim says an unterminated string such as the 4-character input
quote-`a`-`b`-`c` gives an error carrying the offending character and its
position.  In the code the string scanner runs the cursor to the end of
input, every later scanner fails, and the error formatter then calls
`chars.get(index).unwrap()` with the cursor past the end: `tokenize` panics
rather than returning an error. -/
theorem unterminated_string_input_panics :
    tokenize ("\"abc") = Except.error LexError.panicked :=
  rfl

/-- C3: the claim says CR+LF counts as one line break, placing the `]` of
the input `[`, CR, LF, `]` at line 2, column 1.  In the code the CR arm of
`Tokenizer::whitespace` re-tests the character it already matched as CR
(`if *c == '\n'`), so the LF is processed as a second line break and the `]`
token starts at line 3, column 1. -/
theorem cr_lf_advances_two_lines :
    tokenize ("[\r\n]") = Except.ok
      [Token.leftBracket ⟨⟨1,1,0⟩,⟨1,2,1⟩⟩, Token.rightBracket ⟨⟨3,1,3⟩,⟨3,2,4⟩⟩] :=
  rfl

/-- C4: the claim says that after the longest numeric lexeme is finalized
tokenization resumes at the first character not part of it, so `1.` must
fail on the trailing dot and a bare `-` must give a located error.  In the
code the number loop leaves the cursor after the dot it consumed
tentatively, so `1.` tokenizes successfully to the single number `1` with
the dot silently skipped; and on the bare `-` every scanner fails with the
cursor already past the end, so the error formatter's
`chars.get(index).unwrap()` panics instead of returning a located error. -/
theorem number_scan_skips_dot_and_bare_minus_panics :
    tokenize ("1.") = Except.ok [Token.number ("1") ⟨⟨1,1,0⟩,⟨1,2,1⟩⟩]
    ∧ tokenize ("-") = Except.error LexError.panicked :=
  ⟨rfl, rfl⟩

/-- C5: parsing `[1,2,]` fails with an unexpected-token error on the closing
bracket that follows the comma (span `[5,6)`), not as a two-element array. -/
theorem trailing_comma_rejected :
    Json.parse ("[1,2,]") = Except.error (JsonError.parse (ParseError.unexpectedToken
      (Token.rightBracket ⟨⟨1,6,5⟩,⟨1,7,6⟩⟩))) :=
  rfl

/-- C6: parsing the empty object and the empty array yields zero-member
collection nodes whose spans run from offset 0 to offset 2, merged from the
opening and closing delimiter spans. -/
theorem empty_object_and_array_spans :
    Json.parse ("\x7b\x7d") = Except.ok (Ast.object [] ⟨⟨1,1,0⟩,⟨1,3,2⟩⟩)
    ∧ Json.parse ("[]") = Except.ok (Ast.array [] ⟨⟨1,1,0⟩,⟨1,3,2⟩⟩) :=
  ⟨rfl, rfl⟩

/-- C7: `Parser::parse` only guards the empty token sequence and otherwise
returns whatever the first `parse_value` produced, never checking that the
tokens are exhausted: whenever the input tokenizes and a first value parses
(leaving the cursor wherever it stopped, with no constraint that it reached
the end), `Json::parse` succeeds with that value. -/
theorem parse_ignores_trailing_tokens (s : String) (ts : List Token) (a : Ast)
    (p' : Parser) (htok : tokenize s = Except.ok ts)
    (hval : parseValue (parseFuel ts.length) { tokens := ts, index := 0 } = (Except.ok a, p')) :
    Json.parse s = Except.ok a := by
  have hne : ts.length ≠ 0 := by
    intro hlen
    have hnil : ts = [] := List.length_eq_zero.mp hlen
    subst hnil
    have hev : parseValue (parseFuel (List.length ([] : List Token)))
        { tokens := ([] : List Token), index := 0 }
        = (Except.error ParseError.unexpectedEof,
           { tokens := ([] : List Token), index := 0 }) := rfl
    rw [hev] at hval
    simp at hval
  have hpt : parseTokens ts = Except.ok a := by
    unfold parseTokens
    rw [if_neg hne, hval]
  unfold Json.parse
  rw [htok]
  show (parseTokens ts).mapError JsonError.parse = Except.ok a
  rw [hpt]
  rfl

/-- Witness for C7: the input `1 2` tokenizes to two number tokens, and
`Json::parse` returns the first value only, ignoring the trailing token. -/
theorem parse_ignores_trailing_tokens_witness :
    tokenize ("1 2") = Except.ok
      [Token.number ("1") ⟨⟨1,1,0⟩,⟨1,2,1⟩⟩, Token.number ("2") ⟨⟨1,3,2⟩,⟨1,4,3⟩⟩]
    ∧ Json.parse ("1 2") = Except.ok (Ast.number ("1") ⟨⟨1,1,0⟩,⟨1,2,1⟩⟩) :=
  ⟨rfl,
    parse_ignores_trailing_tokens ("1 2")
      [Token.number ("1") ⟨⟨1,1,0⟩,⟨1,2,1⟩⟩, Token.number ("2") ⟨⟨1,3,2⟩,⟨1,4,3⟩⟩]
      (Ast.number ("1") ⟨⟨1,1,0⟩,⟨1,2,1⟩⟩)
      { tokens := [Token.number ("1") ⟨⟨1,1,0⟩,⟨1,2,1⟩⟩,
                   Token.number ("2") ⟨⟨1,3,2⟩,⟨1,4,3⟩⟩], index := 1 }
      rfl rfl⟩

/-- C8: parsing an empty token sequence fails with the unexpected-end-of-
input error, and so does `Json::parse` on the empty input and on
whitespace-only input (both of which tokenize to the empty sequence). -/
theorem empty_token_sequence_is_eof_error :
    parseTokens [] = Except.error ParseError.unexpectedEof
    ∧ Json.parse ("") = Except.error (JsonError.parse ParseError.unexpectedEof)
    ∧ Json.parse ("  ") = Except.error (JsonError.parse ParseError.unexpectedEof) :=
  ⟨rfl, rfl, rfl⟩

/-- C9: parsing the one-property object yields the recorded AST; the default
traversal with a string hook visits `hello` (the key) strictly before
`world` (the value); and the property node's span runs from offset 1 (the
opening quote of the key) to offset 16 (past the closing quote of the
value). -/
theorem visitor_sees_key_before_value :
    Json.parse ("\x7b\"hello\":\"world\"\x7d") = Except.ok helloWorldAst
    ∧ visitJson helloWorldAst [] = ["hello", "world"]
    ∧ propertySpans helloWorldAst = [⟨⟨1,2,1⟩,⟨1,17,16⟩⟩] :=
  ⟨rfl,
    by simp [helloWorldAst, visitJson, visitObject, visitProperty, visitIdentifier,
      visitPropertyValue, visitString],
    rfl⟩

/-- C10: the claim says the 8-character input quote-`\u0041`-quote parses to
the string `A`.  The escape-resolution pass would indeed decode it (first
conjunct), but the tokenizer's hex-digit check advances its cursor while
also adding the loop counter to it, probing positions `p+1`, `p+3`, `p+5`,
`p+7` instead of the four digits, so the string token is rejected; scanning
then misparses the tail and ends panicking on the dangling quote, and
`Json::parse` never produces a node. -/
theorem unicode_escape_input_panics :
    parse_string ("\"\\u0041\"") = Except.ok ("A")
    ∧ tokenize ("\"\\u0041\"") = Except.error LexError.panicked
    ∧ Json.parse ("\"\\u0041\"") = Except.error (JsonError.lex LexError.panicked) :=
  ⟨rfl, rfl, rfl⟩

end JsonParser
